import Mathlib

/-!
Verification of the aerodynamic-coefficient pipeline of the
"so_you_want_to_be_an_aerospace_engineer" repository.

The TypeScript source is shallowly embedded over the real numbers:
JavaScript's IEEE doubles are modelled as elements of ℝ, a sample's loose
column map (`IMUDataPoint` with arbitrary keys) is modelled as a partial map
`String → Option ℝ`, and JavaScript's falsy-fallback `a || b` on numbers
(which falls through both on a missing key and on a stored value of 0) is
modelled explicitly in `resolveChannel` and `jsRead`.

Embedded functions keep the names of their TypeScript counterparts:
  * `calculateAerodynamicCoefficients`  — src/src/utils/aerodynamicCalculations.ts,
    first (raw-integration) variant, lines 24-146;
  * `calculateAerodynamicCoefficientsOriented` — same file, second
    (orientation-aware) variant, lines 265-404;
  * `butterworthFilter`, `applySmoothing` — same file, lines 253-263 and 391-404;
  * `calculateEuler`, `calculateRK4`, `processData` — src/src/utils/dataProcessing.ts;
  * `handleUpdateBounds` — the bounds-update handler of the AnalyzeFlight page.
-/

namespace AeroSpec

noncomputable section

/-- `AircraftParameters` from src/src/types (wing area m², weight kg, air density kg/m³). -/
structure AircraftParameters where
  wingSurfaceArea : ℝ
  aircraftWeight : ℝ
  airDensity : ℝ

/-- `FlightBounds`: row indices of the flight and stationary windows. -/
structure FlightBounds where
  flightStart : ℕ
  flightEnd : ℕ
  stationaryStart : ℕ
  stationaryEnd : ℕ

/-- Output record `AerodynamicCoefficient {timestamp, CL, CD, velocity, dynamicPressure}`. -/
structure AerodynamicCoefficient where
  timestamp : ℝ
  CL : ℝ
  CD : ℝ
  velocity : ℝ
  dynamicPressure : ℝ

/-- One timestamped sample: a numeric `timestamp` plus a loose map of named
numeric channels (a CSV row parsed into a JS object; a key that is absent in
the file is `none`). -/
structure IMUDataPoint where
  timestamp : ℝ
  channels : String → Option ℝ

/-- A 3-vector, standing for the `number[]` triples of the source. -/
structure Vec3 where
  x : ℝ
  y : ℝ
  z : ℝ

def Vec3.zero : Vec3 := ⟨0, 0, 0⟩

/-- `vectorMagnitude` (L2 norm): `Math.sqrt(v[0]*v[0] + v[1]*v[1] + v[2]*v[2])`. -/
def vectorMagnitude (v : Vec3) : ℝ :=
  Real.sqrt (v.x * v.x + v.y * v.y + v.z * v.z)

/-- `dotProduct`. -/
def dotProduct (a b : Vec3) : ℝ :=
  a.x * b.x + a.y * b.y + a.z * b.z

/-- JavaScript fallback chain `point[k1] || point[k2] || ... || deflt` on
numeric channels: a candidate key contributes its value only when the key is
present AND its value is truthy (nonzero); otherwise the chain falls through
to the next candidate, ending in the literal default. -/
def resolveChannel (p : IMUDataPoint) (candidates : List String) (deflt : ℝ) : ℝ :=
  match candidates with
  | [] => deflt
  | k :: ks =>
    match p.channels k with
    | some v => if v = 0 then resolveChannel p ks deflt else v
    | none => resolveChannel p ks deflt

/-- Candidate column names for `accelX` in `extractSensorData`
(aerodynamicCalculations.ts line 7), in source priority order. -/
def accelXKeys : List String :=
  ["Linear Accel X", "linear_accel_x", "accelX", "accel_x", "accel x", "ax", "AccelX"]

/-- Candidate column names for `accelY` (line 8). -/
def accelYKeys : List String :=
  ["Linear Accel Y", "linear_accel_y", "accelY", "accel_y", "accel y", "ay", "AccelY"]

/-- Candidate column names for `accelZ` (line 9). -/
def accelZKeys : List String :=
  ["Linear Accel Z", "linear_accel_z", "accelZ", "accel_z", "accel z", "az", "AccelZ"]

/-- `extractSensorData` (raw variant, lines 5-12): resolve the three linear
acceleration channels through their fallback chains. -/
def extractSensorData (p : IMUDataPoint) : Vec3 :=
  ⟨resolveChannel p accelXKeys 0,
   resolveChannel p accelYKeys 0,
   resolveChannel p accelZKeys 0⟩

/-- JavaScript `Array.prototype.slice(a, b)`: elements `a .. b-1`. -/
def jsSlice {α : Type} (l : List α) (a b : ℕ) : List α :=
  (l.drop a).take (b - a)

/-- Consecutive timestamp differences `time[i] - time[i-1]` for `i ≥ 1`. -/
def tailDiffs (times : List ℝ) : List ℝ :=
  (times.zip (times.drop 1)).map (fun p => p.2 - p.1)

/-- The `dt` array of lines 52-55: first entry 0, then consecutive differences. -/
def dtList (times : List ℝ) : List ℝ :=
  0 :: tailDiffs times

/-- Inner loop of the forward-Euler accumulation (lines 63-72, `i ≥ 1`):
`v += lin_accel[i] * dt[i]`, recording each accumulated value. -/
def velAux (vprev : Vec3) : List (Vec3 × ℝ) → List Vec3
  | [] => []
  | (a, d) :: rest =>
    let vnew : Vec3 := ⟨vprev.x + a.x * d, vprev.y + a.y * d, vprev.z + a.z * d⟩
    vnew :: velAux vnew rest

/-- Forward-Euler integration of acceleration into per-sample velocity
(lines 59-72): `v[0] = (0,0,0)`, then cumulative sums of `a[i]·dt[i]`. -/
def velocities (accel : List Vec3) (dts : List ℝ) : List Vec3 :=
  match accel with
  | [] => []
  | _ :: restAccel => Vec3.zero :: velAux Vec3.zero (restAccel.zip (dts.drop 1))

/-- Per-sample body of the raw variant's output loop (lines 82-134): force
decomposition into drag (along velocity) and lift (perpendicular), then
epsilon-guarded normalization into CL and CD. -/
def coeffRecord (params : AircraftParameters) (t : ℝ) (a v : Vec3) : AerodynamicCoefficient :=
  let F_aero : Vec3 :=
    ⟨params.aircraftWeight * a.x, params.aircraftWeight * a.y, params.aircraftWeight * a.z⟩
  let v_mag := vectorMagnitude v
  if v_mag > 1e-8 then
    let drag_proj := dotProduct F_aero v / (v_mag + 1e-8)
    let drag_unit : Vec3 :=
      ⟨v.x / (v_mag + 1e-8), v.y / (v_mag + 1e-8), v.z / (v_mag + 1e-8)⟩
    let D_vec : Vec3 :=
      ⟨drag_proj * drag_unit.x, drag_proj * drag_unit.y, drag_proj * drag_unit.z⟩
    let L_vec : Vec3 :=
      ⟨F_aero.x - D_vec.x, F_aero.y - D_vec.y, F_aero.z - D_vec.z⟩
    let L_mag := vectorMagnitude L_vec
    let D_mag := vectorMagnitude D_vec
    let q_dyn := 0.5 * params.airDensity * v_mag * v_mag
    { timestamp := t
      CL := L_mag / (q_dyn * params.wingSurfaceArea + 1e-8)
      CD := D_mag / (q_dyn * params.wingSurfaceArea + 1e-8)
      velocity := v_mag
      dynamicPressure := 0.5 * params.airDensity * v_mag * v_mag }
  else
    { timestamp := t
      CL := 0
      CD := 0
      velocity := v_mag
      dynamicPressure := 0.5 * params.airDensity * v_mag * v_mag }

/-- `calculateAerodynamicCoefficients` — the raw-integration (no orientation)
variant, src/src/utils/aerodynamicCalculations.ts lines 24-146: slice the
flight window, integrate acceleration into velocity by forward Euler, and
emit one coefficient record per flight sample. -/
def calculateAerodynamicCoefficients (data : List IMUDataPoint) (bounds : FlightBounds)
    (params : AircraftParameters) : List AerodynamicCoefficient :=
  let flightData := jsSlice data bounds.flightStart (bounds.flightEnd + 1)
  if flightData.length = 0 then []
  else
    let time := flightData.map (fun p => p.timestamp)
    let lin_accel := flightData.map extractSensorData
    let dts := dtList time
    let v := velocities lin_accel dts
    List.zipWith (fun (ta : ℝ × Vec3) (vel : Vec3) => coeffRecord params ta.1 ta.2 vel)
      (time.zip lin_accel) v

/-- Quaternion `{w, x, y, z}` of the orientation-aware variant. -/
structure Quaternion where
  w : ℝ
  x : ℝ
  y : ℝ
  z : ℝ

/-- `slerp` (aerodynamicCalculations.ts lines 159-190): spherical linear
interpolation, falling back to normalized linear interpolation when the
quaternions are nearly parallel. -/
def slerp (q1 q2 : Quaternion) (t : ℝ) : Quaternion :=
  let dot := q1.w * q2.w + q1.x * q2.x + q1.y * q2.y + q1.z * q2.z
  if |dot| > 0.9995 then
    let rw := q1.w + t * (q2.w - q1.w)
    let rx := q1.x + t * (q2.x - q1.x)
    let ry := q1.y + t * (q2.y - q1.y)
    let rz := q1.z + t * (q2.z - q1.z)
    let norm := Real.sqrt (rw * rw + rx * rx + ry * ry + rz * rz)
    ⟨rw / norm, rx / norm, ry / norm, rz / norm⟩
  else
    let angle := Real.arccos |dot|
    let sinAngle := Real.sin angle
    let a := Real.sin ((1 - t) * angle) / sinAngle
    let b := Real.sin (t * angle) / sinAngle
    ⟨a * q1.w + b * q2.w, a * q1.x + b * q2.x, a * q1.y + b * q2.y, a * q1.z + b * q2.z⟩

/-- Chain step of `averageQuaternion`: fold `slerp(acc, q[i], 1/(i+1))`
starting from `q[0]`, with `i` the 1-based position in the tail. -/
def averageQuaternionAux (acc : Quaternion) (i : ℕ) : List Quaternion → Quaternion
  | [] => acc
  | q :: rest => averageQuaternionAux (slerp acc q (1 / (i + 1))) (i + 1) rest

/-- `averageQuaternion` (lines 193-202): identity for the empty list, the
element itself for singletons, else a SLERP chain. -/
def averageQuaternion (quaternions : List Quaternion) : Quaternion :=
  match quaternions with
  | [] => ⟨1, 0, 0, 0⟩
  | [q] => q
  | q :: rest => averageQuaternionAux q 1 rest

/-- A 3×3 matrix with explicit entries (`number[][]` in the source). -/
structure Mat3 where
  m00 : ℝ
  m01 : ℝ
  m02 : ℝ
  m10 : ℝ
  m11 : ℝ
  m12 : ℝ
  m20 : ℝ
  m21 : ℝ
  m22 : ℝ

/-- `quaternionToRotationMatrix` (lines 205-212). -/
def quaternionToRotationMatrix (q : Quaternion) : Mat3 :=
  ⟨1 - 2 * (q.y * q.y + q.z * q.z), 2 * (q.x * q.y - q.w * q.z), 2 * (q.x * q.z + q.w * q.y),
   2 * (q.x * q.y + q.w * q.z), 1 - 2 * (q.x * q.x + q.z * q.z), 2 * (q.y * q.z - q.w * q.x),
   2 * (q.x * q.z - q.w * q.y), 2 * (q.y * q.z + q.w * q.x), 1 - 2 * (q.x * q.x + q.y * q.y)⟩

/-- `multiplyMatrices` (lines 215-225) specialized to 3×3. -/
def multiplyMatrices (a b : Mat3) : Mat3 :=
  ⟨a.m00 * b.m00 + a.m01 * b.m10 + a.m02 * b.m20,
   a.m00 * b.m01 + a.m01 * b.m11 + a.m02 * b.m21,
   a.m00 * b.m02 + a.m01 * b.m12 + a.m02 * b.m22,
   a.m10 * b.m00 + a.m11 * b.m10 + a.m12 * b.m20,
   a.m10 * b.m01 + a.m11 * b.m11 + a.m12 * b.m21,
   a.m10 * b.m02 + a.m11 * b.m12 + a.m12 * b.m22,
   a.m20 * b.m00 + a.m21 * b.m10 + a.m22 * b.m20,
   a.m20 * b.m01 + a.m21 * b.m11 + a.m22 * b.m21,
   a.m20 * b.m02 + a.m21 * b.m12 + a.m22 * b.m22⟩

/-- `transformVector` (lines 228-234). -/
def transformVector (m : Mat3) (v : Vec3) : Vec3 :=
  ⟨m.m00 * v.x + m.m01 * v.y + m.m02 * v.z,
   m.m10 * v.x + m.m11 * v.y + m.m12 * v.z,
   m.m20 * v.x + m.m21 * v.y + m.m22 * v.z⟩

/-- `normalizeVector` (lines 242-245). -/
def normalizeVector (v : Vec3) : Vec3 :=
  let mag := vectorMagnitude v
  if mag > 0 then ⟨v.x / mag, v.y / mag, v.z / mag⟩ else ⟨0, 0, 0⟩

/-- Inner recursion of `butterworthFilter`:
`filtered[i] = alpha * filtered[i-1] + (1 - alpha) * data[i]`. -/
def butterworthAux (alpha prev : ℝ) : List ℝ → List ℝ
  | [] => []
  | v :: rest =>
    let y := alpha * prev + (1 - alpha) * v
    y :: butterworthAux alpha y rest

/-- `butterworthFilter` (lines 253-263): a single-pole exponential low-pass
filter with `alpha = exp(-2π · cutoffHz / nyquist)`; the first sample is
passed through unchanged. -/
def butterworthFilter (data : List ℝ) (cutoffHz sampleRate : ℝ) : List ℝ :=
  let nyquist := sampleRate / 2
  let normalizedCutoff := cutoffHz / nyquist
  let alpha := Real.exp (-(2 * Real.pi * normalizedCutoff))
  match data with
  | [] => []
  | v :: rest => v :: butterworthAux alpha v rest

/-- Smoothing stage (lines 391-403): filter the CL and CD series and rebuild
the records with `{...coeff, CL: filteredCL[i], CD: filteredCD[i]}`. -/
def applySmoothing (cutoffHz sampleRate : ℝ)
    (coefficients : List AerodynamicCoefficient) : List AerodynamicCoefficient :=
  let CLValues := coefficients.map (fun c => c.CL)
  let CDValues := coefficients.map (fun c => c.CD)
  let filteredCL := butterworthFilter CLValues cutoffHz sampleRate
  let filteredCD := butterworthFilter CDValues cutoffHz sampleRate
  coefficients.mapIdx fun i c =>
    { c with CL := filteredCL.getD i 0, CD := filteredCD.getD i 0 }

/-- Per-sample quaternion read of the orientation-aware variant
(`point.qw || 1`, `point.qx || 0`, ... — lines 303-308). -/
def pointQuaternion (p : IMUDataPoint) : Quaternion :=
  ⟨resolveChannel p ["qw"] 1, resolveChannel p ["qx"] 0,
   resolveChannel p ["qy"] 0, resolveChannel p ["qz"] 0⟩

/-- Body-frame acceleration read (`point.accelX || 0`, ... — line 314). -/
def pointAccel (p : IMUDataPoint) : Vec3 :=
  ⟨resolveChannel p ["accelX"] 0, resolveChannel p ["accelY"] 0, resolveChannel p ["accelZ"] 0⟩

/-- Earth-frame acceleration of one sample: `Ri = R_b2e * R(qi)` applied to
the body acceleration (lines 310-315). -/
def earthAccel (R_b2e : Mat3) (p : IMUDataPoint) : Vec3 :=
  transformVector (multiplyMatrices R_b2e (quaternionToRotationMatrix (pointQuaternion p))) (pointAccel p)

/-- Per-sample record of the orientation-aware variant (lines 336-388): a
degenerate all-zero-coefficient record below the 0.1 m/s speed gate (with
dynamicPressure written as the literal 0), else the lift/drag decomposition
against the unit velocity with `q_dyn > 0` guards. -/
def orientRecord (params : AircraftParameters) (t : ℝ) (accel_earth velocity : Vec3) :
    AerodynamicCoefficient :=
  let speed := vectorMagnitude velocity
  if speed < 0.1 then
    { timestamp := t, CL := 0, CD := 0, velocity := speed, dynamicPressure := 0 }
  else
    let F_aero : Vec3 :=
      ⟨params.aircraftWeight * accel_earth.x,
       params.aircraftWeight * accel_earth.y,
       params.aircraftWeight * accel_earth.z⟩
    let v_hat := normalizeVector velocity
    let dragMagnitude := dotProduct F_aero v_hat
    let drag : Vec3 :=
      ⟨-dragMagnitude * v_hat.x, -dragMagnitude * v_hat.y, -dragMagnitude * v_hat.z⟩
    let lift : Vec3 := ⟨F_aero.x - drag.x, F_aero.y - drag.y, F_aero.z - drag.z⟩
    let q_dyn := 0.5 * params.airDensity * speed * speed
    let CL := if q_dyn > 0 then vectorMagnitude lift / (q_dyn * params.wingSurfaceArea) else 0
    let CD := if q_dyn > 0 then |dragMagnitude| / (q_dyn * params.wingSurfaceArea) else 0
    { timestamp := t, CL := CL, CD := CD, velocity := speed, dynamicPressure := q_dyn }

/-- Integration step of the orientation-aware variant for `i > 0`
(lines 318-334): Euler update `v += accel_earth · dt` with
`dt = (t_i - t_{i-1})/1000`, then the 0.99 drift-suppression decay whenever
the earth-frame acceleration magnitude is below 0.5. -/
def orientStep (R_b2e : Mat3) (prevT : ℝ) (velocity : Vec3) (p : IMUDataPoint) : Vec3 :=
  let accel_earth := earthAccel R_b2e p
  let dt := (p.timestamp - prevT) / 1000
  let v1 : Vec3 :=
    ⟨velocity.x + accel_earth.x * dt,
     velocity.y + accel_earth.y * dt,
     velocity.z + accel_earth.z * dt⟩
  if vectorMagnitude accel_earth < 0.5 then ⟨0.99 * v1.x, 0.99 * v1.y, 0.99 * v1.z⟩ else v1

/-- The `i ≥ 1` portion of the orientation-aware processing loop, carrying the
previous sample's timestamp and the accumulated velocity. -/
def orientLoop (params : AircraftParameters) (R_b2e : Mat3) :
    ℝ → Vec3 → List IMUDataPoint → List AerodynamicCoefficient
  | _, _, [] => []
  | prevT, v, p :: rest =>
    let vnew := orientStep R_b2e prevT v p
    orientRecord params p.timestamp (earthAccel R_b2e p) vnew ::
      orientLoop params R_b2e p.timestamp vnew rest

/-- `calculateAerodynamicCoefficients` — the orientation-aware variant,
src/src/utils/aerodynamicCalculations.ts lines 265-404: aborts with an empty
series when either the stationary or the flight window is empty; otherwise
computes a SLERP-averaged reference quaternion, integrates earth-frame
acceleration with drift suppression, and Butterworth-smooths CL and CD. -/
def calculateAerodynamicCoefficientsOriented (data : List IMUDataPoint) (bounds : FlightBounds)
    (params : AircraftParameters) : List AerodynamicCoefficient :=
  let stationaryData := jsSlice data bounds.stationaryStart (bounds.stationaryEnd + 1)
  let flightData := jsSlice data bounds.flightStart (bounds.flightEnd + 1)
  if stationaryData.length = 0 ∨ flightData.length = 0 then []
  else
    let stationaryQuaternions := stationaryData.map pointQuaternion
    let q0 := averageQuaternion stationaryQuaternions
    let R_b2e := quaternionToRotationMatrix q0
    let raw :=
      match flightData with
      | [] => []
      | p0 :: rest =>
        orientRecord params p0.timestamp (earthAccel R_b2e p0) Vec3.zero ::
          orientLoop params R_b2e p0.timestamp Vec3.zero rest
    applySmoothing 2.5 100 raw

/-- Checked division: `none` exactly when the denominator is zero (the one
situation in which the source's real-valued divisions could degenerate). -/
def divO (x y : ℝ) : Option ℝ :=
  if y = 0 then none else some (x / y)

/-- `coeffRecord` with every division routed through `divO`: evaluates to
`some r` only when no division in the record's computation has a zero
denominator. -/
def coeffRecordChecked (params : AircraftParameters) (t : ℝ) (a v : Vec3) :
    Option AerodynamicCoefficient :=
  let F_aero : Vec3 :=
    ⟨params.aircraftWeight * a.x, params.aircraftWeight * a.y, params.aircraftWeight * a.z⟩
  let v_mag := vectorMagnitude v
  if v_mag > 1e-8 then
    match divO (dotProduct F_aero v) (v_mag + 1e-8), divO v.x (v_mag + 1e-8),
        divO v.y (v_mag + 1e-8), divO v.z (v_mag + 1e-8) with
    | some drag_proj, some ux, some uy, some uz =>
      let D_vec : Vec3 := ⟨drag_proj * ux, drag_proj * uy, drag_proj * uz⟩
      let L_vec : Vec3 := ⟨F_aero.x - D_vec.x, F_aero.y - D_vec.y, F_aero.z - D_vec.z⟩
      let q_dyn := 0.5 * params.airDensity * v_mag * v_mag
      match divO (vectorMagnitude L_vec) (q_dyn * params.wingSurfaceArea + 1e-8),
          divO (vectorMagnitude D_vec) (q_dyn * params.wingSurfaceArea + 1e-8) with
      | some cl, some cd =>
        some { timestamp := t, CL := cl, CD := cd, velocity := v_mag,
               dynamicPressure := 0.5 * params.airDensity * v_mag * v_mag }
      | _, _ => none
    | _, _, _, _ => none
  else
    some { timestamp := t, CL := 0, CD := 0, velocity := v_mag,
           dynamicPressure := 0.5 * params.airDensity * v_mag * v_mag }

/-- Option-sequencing map: `some` of the mapped list when every element maps
to `some`, `none` as soon as one element fails. -/
def mapMO {α β : Type} (f : α → Option β) : List α → Option (List β)
  | [] => some []
  | a :: rest =>
    match f a, mapMO f rest with
    | some b, some bs => some (b :: bs)
    | _, _ => none

/-- `calculateAerodynamicCoefficients` evaluated with checked division:
`none` if any division anywhere in the record loop would divide by zero. -/
def calculateChecked (data : List IMUDataPoint) (bounds : FlightBounds)
    (params : AircraftParameters) : Option (List AerodynamicCoefficient) :=
  let flightData := jsSlice data bounds.flightStart (bounds.flightEnd + 1)
  if flightData.length = 0 then some []
  else
    let time := flightData.map (fun p => p.timestamp)
    let lin_accel := flightData.map extractSensorData
    let dts := dtList time
    let v := velocities lin_accel dts
    mapMO (fun (pr : (ℝ × Vec3) × Vec3) => coeffRecordChecked params pr.1.1 pr.1.2 pr.2)
      ((time.zip lin_accel).zip v)

/-- Fixed-schema sample of src/src/types: `IMUDataPoint` as consumed by
dataProcessing.ts (direct property access, no fallback chains). -/
structure IMUFixedPoint where
  timestamp : ℝ
  accelX : ℝ
  accelY : ℝ
  accelZ : ℝ
  gyroX : ℝ
  gyroY : ℝ
  gyroZ : ℝ
  pressure : ℝ

/-- `ProcessedDataPoint`: the input sample's fields plus derived kinematics. -/
structure ProcessedDataPoint where
  timestamp : ℝ
  accelX : ℝ
  accelY : ℝ
  accelZ : ℝ
  gyroX : ℝ
  gyroY : ℝ
  gyroZ : ℝ
  pressure : ℝ
  instantAccel : ℝ
  velocityX : ℝ
  velocityY : ℝ
  velocityZ : ℝ
  speed : ℝ

/-- The two integration strategies selectable in `ProcessingOptions`. -/
inductive IntegrationMethod
  | euler
  | rk4

/-- `ProcessingOptions` (the fields processData actually reads). -/
structure ProcessingOptions where
  integrationMethod : IntegrationMethod
  gravityCompensation : Bool

/-- `calculateMagnitude` (dataProcessing.ts lines 5-7). -/
def calculateMagnitude (x y z : ℝ) : ℝ :=
  Real.sqrt (x * x + y * y + z * z)

/-- `calculateTimeDelta` (lines 26-30): raw difference, divided by 1000 when
it exceeds 1000 (the milliseconds heuristic). -/
def calculateTimeDelta (current previous : IMUFixedPoint) : ℝ :=
  let timeDiff := current.timestamp - previous.timestamp
  if timeDiff > 1000 then timeDiff / 1000 else timeDiff

/-- The initial processed record shared by both integrators (zero velocity,
instantaneous acceleration of the raw first sample). -/
def initialProcessed (p : IMUFixedPoint) : ProcessedDataPoint :=
  { timestamp := p.timestamp, accelX := p.accelX, accelY := p.accelY, accelZ := p.accelZ
    gyroX := p.gyroX, gyroY := p.gyroY, gyroZ := p.gyroZ, pressure := p.pressure
    instantAccel := calculateMagnitude p.accelX p.accelY p.accelZ
    velocityX := 0, velocityY := 0, velocityZ := 0, speed := 0 }

/-- One Euler step (dataProcessing.ts lines 53-88): gravity compensation on
the z axis when enabled, then `v = v_prev + a·dt` and the speed norm. The
spread `{...current, ...}` keeps the raw sample fields. -/
def eulerStep (options : ProcessingOptions) (prev : ProcessedDataPoint)
    (prevRaw current : IMUFixedPoint) : ProcessedDataPoint :=
  let dt := calculateTimeDelta current prevRaw
  let accelX := current.accelX
  let accelY := current.accelY
  let accelZ := if options.gravityCompensation then current.accelZ - 9.81 else current.accelZ
  let instantAccel := calculateMagnitude accelX accelY accelZ
  let velocityX := prev.velocityX + accelX * dt
  let velocityY := prev.velocityY + accelY * dt
  let velocityZ := prev.velocityZ + accelZ * dt
  let speed := calculateMagnitude velocityX velocityY velocityZ
  { timestamp := current.timestamp, accelX := current.accelX, accelY := current.accelY
    accelZ := current.accelZ, gyroX := current.gyroX, gyroY := current.gyroY
    gyroZ := current.gyroZ, pressure := current.pressure
    instantAccel := instantAccel, velocityX := velocityX, velocityY := velocityY
    velocityZ := velocityZ, speed := speed }

/-- One RK4 step (lines 114-172): all four slopes `k1..k4` are the same
constant sample acceleration, combined as `(dt/6)·(k1 + 2k2 + 2k3 + k4)`. -/
def rk4Step (options : ProcessingOptions) (prev : ProcessedDataPoint)
    (prevRaw current : IMUFixedPoint) : ProcessedDataPoint :=
  let dt := calculateTimeDelta current prevRaw
  let accelX := current.accelX
  let accelY := current.accelY
  let accelZ := if options.gravityCompensation then current.accelZ - 9.81 else current.accelZ
  let instantAccel := calculateMagnitude accelX accelY accelZ
  let k1x := accelX
  let k1y := accelY
  let k1z := accelZ
  let k2x := accelX
  let k2y := accelY
  let k2z := accelZ
  let k3x := accelX
  let k3y := accelY
  let k3z := accelZ
  let k4x := accelX
  let k4y := accelY
  let k4z := accelZ
  let velocityX := prev.velocityX + (dt / 6) * (k1x + 2 * k2x + 2 * k3x + k4x)
  let velocityY := prev.velocityY + (dt / 6) * (k1y + 2 * k2y + 2 * k3y + k4y)
  let velocityZ := prev.velocityZ + (dt / 6) * (k1z + 2 * k2z + 2 * k3z + k4z)
  let speed := calculateMagnitude velocityX velocityY velocityZ
  { timestamp := current.timestamp, accelX := current.accelX, accelY := current.accelY
    accelZ := current.accelZ, gyroX := current.gyroX, gyroY := current.gyroY
    gyroZ := current.gyroZ, pressure := current.pressure
    instantAccel := instantAccel, velocityX := velocityX, velocityY := velocityY
    velocityZ := velocityZ, speed := speed }

/-- Shared loop shape of both integrators: each output depends on the
previous processed record (for velocity) and previous raw sample (for dt). -/
def integLoop (step : ProcessedDataPoint → IMUFixedPoint → IMUFixedPoint → ProcessedDataPoint) :
    ProcessedDataPoint → IMUFixedPoint → List IMUFixedPoint → List ProcessedDataPoint
  | _, _, [] => []
  | prev, prevRaw, current :: rest =>
    let processed := step prev prevRaw current
    processed :: integLoop step processed current rest

/-- `calculateEuler` (dataProcessing.ts lines 33-91). -/
def calculateEuler (data : List IMUFixedPoint) (options : ProcessingOptions) :
    List ProcessedDataPoint :=
  match data with
  | [] => []
  | firstPoint :: rest =>
    initialProcessed firstPoint ::
      integLoop (eulerStep options) (initialProcessed firstPoint) firstPoint rest

/-- `calculateRK4` (dataProcessing.ts lines 94-176). -/
def calculateRK4 (data : List IMUFixedPoint) (options : ProcessingOptions) :
    List ProcessedDataPoint :=
  match data with
  | [] => []
  | firstPoint :: rest =>
    initialProcessed firstPoint ::
      integLoop (rk4Step options) (initialProcessed firstPoint) firstPoint rest

/-- `RawData` (headers are display-only; the core reads `data`). -/
structure RawData where
  data : List IMUFixedPoint

/-- `ProcessedData` minus `csvContent`: the CSV string is a textual rendering
of `processedData` produced for export and carries no further numeric
content, so it is not modelled. -/
structure ProcessedData where
  rawData : RawData
  processedData : List ProcessedDataPoint

/-- `processData` (dataProcessing.ts lines 218-243): dispatch on the selected
integration method. -/
def processData (rawData : RawData) (options : ProcessingOptions) : ProcessedData :=
  let processedData :=
    match options.integrationMethod with
    | IntegrationMethod.rk4 => calculateRK4 rawData.data options
    | IntegrationMethod.euler => calculateEuler rawData.data options
  { rawData := rawData, processedData := processedData }

/-- `handleUpdateBounds` of the AnalyzeFlight page, as a pure transition on
the accepted `FlightBounds` state: a request with `startTime ≥ endTime`, or
with a bound outside `[0, totalDuration]`, is rejected and leaves the state
unchanged; an accepted request converts the times to percentage-derived row
indices and keeps the stationary window. -/
def handleUpdateBounds (startTime endTime totalDuration : ℝ) (dataLen : ℕ)
    (bounds : FlightBounds) : FlightBounds :=
  if startTime ≥ endTime then bounds
  else if startTime < 0 ∨ endTime > totalDuration then bounds
  else
    let startPercentage := startTime / totalDuration * 100
    let endPercentage := endTime / totalDuration * 100
    { flightStart := (⌊startPercentage / 100 * (dataLen : ℝ)⌋).toNat
      flightEnd := (⌊endPercentage / 100 * (dataLen : ℝ)⌋).toNat
      stationaryStart := bounds.stationaryStart
      stationaryEnd := bounds.stationaryEnd }

/-- A two-sample dataset with no channels at all (every role falls back). -/
def tinyData : List IMUDataPoint := [⟨0, fun _ => none⟩, ⟨1, fun _ => none⟩]

/-- A sample whose first acceleration-X candidate key is present with stored
value 0 while a lower-priority candidate holds 5. -/
def zeroFirstPoint : IMUDataPoint :=
  ⟨0, fun k => if k = "Linear Accel X" then some 0 else if k = "accelX" then some 5 else none⟩

/-- A candidate key that contributes nothing to a `||` chain: absent from the
sample, or present with the falsy stored value 0. -/
def jsFalsyAt (p : IMUDataPoint) (k : String) : Prop :=
  p.channels k = none ∨ p.channels k = some 0

/-- `n` uniformly spaced timestamps `t0, t0+dt, t0+2·dt, ...`. -/
def arithSeq (t0 dt : ℝ) : ℕ → List ℝ
  | 0 => []
  | n + 1 => t0 :: arithSeq (t0 + dt) dt n

/-- A two-sample dataset whose only channel is a pressure reading of 50 Pa. -/
def presData1 : List IMUDataPoint :=
  [⟨0, fun k => if k = "pressure" then some 50 else none⟩,
   ⟨1, fun k => if k = "pressure" then some 50 else none⟩]

/-- The same dataset with the pressure channel changed to 999 Pa. -/
def presData2 : List IMUDataPoint :=
  [⟨0, fun k => if k = "pressure" then some 999 else none⟩,
   ⟨1, fun k => if k = "pressure" then some 999 else none⟩]

/-- A sample at t = 0 carrying no channels at all. -/
def c6point0 : IMUDataPoint := ⟨0, fun _ => none⟩

/-- A sample at t = 50 ms with body acceleration (1, 0, 0) m/s² and no
orientation channels (the quaternion defaults to identity). -/
def c6point1 : IMUDataPoint := ⟨50, fun k => if k = "accelX" then some 1 else none⟩

/-- Two-sample dataset for exercising the orientation-aware variant. -/
def c6data : List IMUDataPoint := [c6point0, c6point1]

/-- Concrete aircraft parameters: wing area 10 m², mass 2 kg, sea-level air
density 1.225 kg/m³. -/
def c6params : AircraftParameters := ⟨10, 2, 1.225⟩

/-! ### Helper lemmas -/

theorem velAux_length (vprev : Vec3) (l : List (Vec3 × ℝ)) : (velAux vprev l).length = l.length := by
  induction l generalizing vprev with
  | nil => rfl
  | cons p rest ih => simp [velAux, ih]

theorem tailDiffs_length (times : List ℝ) : (tailDiffs times).length = times.length - 1 := by
  simp [tailDiffs, List.length_zip]

theorem mapIdx_getD {α β : Type} (f : ℕ → α → β) (l : List α) (i : ℕ) (h : i < l.length)
    (d : β) : (l.mapIdx f).getD i d = f i (l.get ⟨i, h⟩) := by
  have h2 : i < (l.mapIdx f).length := by simpa [List.length_mapIdx] using h
  rw [List.getD_eq_getElem _ _ h2]
  have h3 := List.get_mapIdx l f i h
  simp only [List.get_eq_getElem] at h3
  simp [h3]

theorem integLoop_congr (f g : ProcessedDataPoint → IMUFixedPoint → IMUFixedPoint → ProcessedDataPoint)
    (hfg : ∀ a b c, f a b c = g a b c) (prev : ProcessedDataPoint) (prevRaw : IMUFixedPoint)
    (l : List IMUFixedPoint) : integLoop f prev prevRaw l = integLoop g prev prevRaw l := by
  induction l generalizing prev prevRaw with
  | nil => rfl
  | cons c rest ih => simp only [integLoop, hfg, ih]

theorem rk4Step_eq_eulerStep (o1 o2 : ProcessingOptions)
    (hg : o1.gravityCompensation = o2.gravityCompensation) (prev : ProcessedDataPoint)
    (prevRaw current : IMUFixedPoint) :
    rk4Step o1 prev prevRaw current = eulerStep o2 prev prevRaw current := by
  have h : ∀ pv a dt : ℝ, pv + dt / 6 * (a + 2 * a + 2 * a + a) = pv + a * dt := by
    intro pv a dt; ring
  simp only [rk4Step, eulerStep, hg, h]

/-! ### C7 -/

/-- C7: a bounds-update request with requested start ≥ requested end (equality
included) is rejected and the previously accepted flight window is retained
unchanged — `handleUpdateBounds` returns the prior bounds state with no field
modified. -/
theorem C7_reject_retains_bounds (startTime endTime totalDuration : ℝ) (dataLen : ℕ)
    (bounds : FlightBounds) (h : startTime ≥ endTime) :
    handleUpdateBounds startTime endTime totalDuration dataLen bounds = bounds := by
  simp [handleUpdateBounds, h]

/-- Witness for C7 at the equality boundary `start = end = 5`. -/
theorem C7_witness :
    (5 : ℝ) ≥ 5 ∧ handleUpdateBounds 5 5 10 100 ⟨1, 2, 3, 4⟩ = ⟨1, 2, 3, 4⟩ :=
  ⟨le_refl 5, C7_reject_retains_bounds 5 5 10 100 ⟨1, 2, 3, 4⟩ (le_refl 5)⟩

/-! ### C9 -/

/-- C9: `processData` with the 'rk4' integration method returns a processed
series whose velocity components, speed and instantAccel agree exactly (in
real arithmetic) with the 'euler' method: all four RK4 slopes are evaluated
at the same constant sample acceleration, so `(dt/6)·(k1+2k2+2k3+k4)`
collapses to the Euler update `prev + a·dt`. -/
theorem C9_rk4_equals_euler (rawData : RawData) (g : Bool) :
    (processData rawData ⟨IntegrationMethod.rk4, g⟩).processedData.map
        (fun r => (r.velocityX, r.velocityY, r.velocityZ, r.speed, r.instantAccel)) =
      (processData rawData ⟨IntegrationMethod.euler, g⟩).processedData.map
        (fun r => (r.velocityX, r.velocityY, r.velocityZ, r.speed, r.instantAccel)) := by
  have hcalc : calculateRK4 rawData.data ⟨IntegrationMethod.rk4, g⟩ =
      calculateEuler rawData.data ⟨IntegrationMethod.euler, g⟩ := by
    cases rawData.data with
    | nil => rfl
    | cons firstPoint rest =>
      simp only [calculateRK4, calculateEuler]
      rw [integLoop_congr (rk4Step ⟨IntegrationMethod.rk4, g⟩) (eulerStep ⟨IntegrationMethod.euler, g⟩)
        (fun a b c => rk4Step_eq_eulerStep ⟨IntegrationMethod.rk4, g⟩ ⟨IntegrationMethod.euler, g⟩ rfl a b c)]
  simp only [processData, hcalc]

/-! ### C10 -/

/-- C10: the smoothing stage modifies only CL and CD. For every coefficient
series and index `i` inside it, the smoothed series has the same length and
its `i`-th record keeps the raw record's timestamp, velocity and
dynamicPressure. -/
theorem C10_smoothing_preserves_fields (cutoffHz sampleRate : ℝ)
    (coeffs : List AerodynamicCoefficient) (i : ℕ) (h : i < coeffs.length) :
    (applySmoothing cutoffHz sampleRate coeffs).length = coeffs.length ∧
    ((applySmoothing cutoffHz sampleRate coeffs).getD i ⟨0, 0, 0, 0, 0⟩).timestamp =
      (coeffs.getD i ⟨0, 0, 0, 0, 0⟩).timestamp ∧
    ((applySmoothing cutoffHz sampleRate coeffs).getD i ⟨0, 0, 0, 0, 0⟩).velocity =
      (coeffs.getD i ⟨0, 0, 0, 0, 0⟩).velocity ∧
    ((applySmoothing cutoffHz sampleRate coeffs).getD i ⟨0, 0, 0, 0, 0⟩).dynamicPressure =
      (coeffs.getD i ⟨0, 0, 0, 0, 0⟩).dynamicPressure := by
  have hlen : (applySmoothing cutoffHz sampleRate coeffs).length = coeffs.length := by
    simp [applySmoothing, List.length_mapIdx]
  refine ⟨hlen, ?_, ?_, ?_⟩ <;>
  · simp only [applySmoothing]
    rw [mapIdx_getD _ _ _ h, List.getD_eq_getElem _ _ h]
    simp

/-- Witness for C10 on a concrete two-record series at index 1. -/
theorem C10_witness :
    (1 : ℕ) < ([⟨0, 1, 2, 3, 4⟩, ⟨5, 6, 7, 8, 9⟩] : List AerodynamicCoefficient).length ∧
    ((applySmoothing 2.5 100 [⟨0, 1, 2, 3, 4⟩, ⟨5, 6, 7, 8, 9⟩]).getD 1 ⟨0, 0, 0, 0, 0⟩).timestamp =
      (([⟨0, 1, 2, 3, 4⟩, ⟨5, 6, 7, 8, 9⟩] : List AerodynamicCoefficient).getD 1 ⟨0, 0, 0, 0, 0⟩).timestamp ∧
    ((applySmoothing 2.5 100 [⟨0, 1, 2, 3, 4⟩, ⟨5, 6, 7, 8, 9⟩]).getD 1 ⟨0, 0, 0, 0, 0⟩).velocity =
      (([⟨0, 1, 2, 3, 4⟩, ⟨5, 6, 7, 8, 9⟩] : List AerodynamicCoefficient).getD 1 ⟨0, 0, 0, 0, 0⟩).velocity ∧
    ((applySmoothing 2.5 100 [⟨0, 1, 2, 3, 4⟩, ⟨5, 6, 7, 8, 9⟩]).getD 1 ⟨0, 0, 0, 0, 0⟩).dynamicPressure =
      (([⟨0, 1, 2, 3, 4⟩, ⟨5, 6, 7, 8, 9⟩] : List AerodynamicCoefficient).getD 1 ⟨0, 0, 0, 0, 0⟩).dynamicPressure :=
  ⟨by norm_num,
   (C10_smoothing_preserves_fields 2.5 100 [⟨0, 1, 2, 3, 4⟩, ⟨5, 6, 7, 8, 9⟩] 1 (by norm_num)).2⟩

theorem jsSlice_length {α : Type} (l : List α) (a b : ℕ) :
    (jsSlice l a b).length = min (b - a) (l.length - a) := by
  simp [jsSlice]

theorem applySmoothing_length (cutoffHz sampleRate : ℝ) (l : List AerodynamicCoefficient) :
    (applySmoothing cutoffHz sampleRate l).length = l.length := by
  simp [applySmoothing, List.length_mapIdx]

theorem velocities_length (accel : List Vec3) (dts : List ℝ) (h : accel.length ≤ dts.length) :
    (velocities accel dts).length = accel.length := by
  cases accel with
  | nil => rfl
  | cons a rest =>
    simp only [velocities, List.length_cons, velAux_length, List.length_zip, List.length_drop]
    simp only [List.length_cons] at h
    omega

theorem dtList_length (times : List ℝ) (h : times ≠ []) :
    (dtList times).length = times.length := by
  have := tailDiffs_length times
  have : times.length ≠ 0 := fun h0 => h (List.length_eq_zero.mp h0)
  simp only [dtList, List.length_cons, tailDiffs_length]
  omega

/-! ### C2 -/

/-- C2: for valid flight bounds `0 ≤ flightStart < flightEnd < data.length`,
the raw-variant pipeline emits exactly `flightEnd - flightStart + 1`
coefficient records — one per sample of the flight window — and the optional
smoothing stage leaves that count unchanged. -/
theorem C2_output_length (data : List IMUDataPoint) (bounds : FlightBounds)
    (params : AircraftParameters) (cutoffHz sampleRate : ℝ)
    (h1 : bounds.flightStart < bounds.flightEnd) (h2 : bounds.flightEnd < data.length) :
    (calculateAerodynamicCoefficients data bounds params).length =
      bounds.flightEnd - bounds.flightStart + 1 ∧
    (applySmoothing cutoffHz sampleRate
        (calculateAerodynamicCoefficients data bounds params)).length =
      bounds.flightEnd - bounds.flightStart + 1 := by
  have hn : (jsSlice data bounds.flightStart (bounds.flightEnd + 1)).length =
      bounds.flightEnd - bounds.flightStart + 1 := by
    rw [jsSlice_length]; omega
  have hne : ¬ ((jsSlice data bounds.flightStart (bounds.flightEnd + 1)).length = 0) := by
    omega
  have hflight : jsSlice data bounds.flightStart (bounds.flightEnd + 1) ≠ [] := by
    intro h0
    exact hne (by rw [h0]; rfl)
  have hmain : (calculateAerodynamicCoefficients data bounds params).length =
      bounds.flightEnd - bounds.flightStart + 1 := by
    simp only [calculateAerodynamicCoefficients]
    rw [if_neg hne, List.length_zipWith, List.length_zip, List.length_map, List.length_map,
      velocities_length]
    · rw [List.length_map, hn]
      omega
    · rw [List.length_map, dtList_length]
      · rw [List.length_map]
      · intro h0
        exact hflight (List.map_eq_nil_iff.mp h0)
  exact ⟨hmain, by rw [applySmoothing_length, hmain]⟩

/-- Witness for C2 on a concrete two-sample window. -/
theorem C2_witness :
    (0 : ℕ) < 1 ∧ (1 : ℕ) < tinyData.length ∧
    (calculateAerodynamicCoefficients tinyData ⟨0, 1, 0, 0⟩ ⟨1, 1, 1⟩).length = 1 - 0 + 1 ∧
    (applySmoothing 2.5 100 (calculateAerodynamicCoefficients tinyData ⟨0, 1, 0, 0⟩ ⟨1, 1, 1⟩)).length =
      1 - 0 + 1 :=
  ⟨by norm_num, by simp [tinyData],
   (C2_output_length tinyData ⟨0, 1, 0, 0⟩ ⟨1, 1, 1⟩ 2.5 100 (by norm_num) (by simp [tinyData])).1,
   (C2_output_length tinyData ⟨0, 1, 0, 0⟩ ⟨1, 1, 1⟩ 2.5 100 (by norm_num) (by simp [tinyData])).2⟩

/-! ### C4 -/

/-- Counterexample to C4 as stated: the first candidate key of the
acceleration-X chain is present in the sample and stores 0, yet resolution
does not return that stored value — the JavaScript `||` chain skips the
falsy 0 and returns 5 from the lower-priority key `accelX`. -/
theorem C4_counterexample :
    zeroFirstPoint.channels ("Linear Accel X") = some 0 ∧
    accelXKeys.headD ("") = "Linear Accel X" ∧
    resolveChannel zeroFirstPoint accelXKeys 0 = 5 := by
  refine ⟨by simp [zeroFirstPoint], by simp [accelXKeys], ?_⟩
  simp [resolveChannel, accelXKeys, zeroFirstPoint]

/-- C4 (amended): channel resolution returns the value of the first candidate
key that is present with a nonzero value, skipping candidates that are absent
or store 0; it resolves to the default exactly when every candidate is absent
or stores 0. -/
theorem C4_first_nonzero_wins (p : IMUDataPoint) (d : ℝ) :
    (∀ cands : List String, (∀ k ∈ cands, jsFalsyAt p k) → resolveChannel p cands d = d) ∧
    (∀ (pre post : List String) (k : String) (v : ℝ), (∀ kp ∈ pre, jsFalsyAt p kp) →
      p.channels k = some v → v ≠ 0 → resolveChannel p (pre ++ k :: post) d = v) := by
  constructor
  · intro cands
    induction cands with
    | nil => intro _; rfl
    | cons k ks ih =>
      intro hall
      have hk := hall k (List.mem_cons_self k ks)
      have hrest : ∀ kp ∈ ks, jsFalsyAt p kp := fun kp hkp => hall kp (List.mem_cons_of_mem k hkp)
      rcases hk with hnone | hzero
      · simp [resolveChannel, hnone, ih hrest]
      · simp [resolveChannel, hzero, ih hrest]
  · intro pre post k v hpre hk hv
    induction pre with
    | nil => simp [resolveChannel, hk, hv]
    | cons k0 pre0 ih =>
      have hk0 := hpre k0 (List.mem_cons_self k0 pre0)
      have hrest : ∀ kp ∈ pre0, jsFalsyAt p kp := fun kp hkp => hpre kp (List.mem_cons_of_mem k0 hkp)
      rcases hk0 with hnone | hzero
      · simp [resolveChannel, hnone, ih hrest]
      · simp [resolveChannel, hzero, ih hrest]

/-- Witness for C4 (amended) on the same concrete sample: the prefix
`["Linear Accel X", "linear_accel_x"]` is falsy (stored 0 and absent), so the
nonzero value 5 under `accelX` wins. -/
theorem C4_witness :
    resolveChannel zeroFirstPoint
      (["Linear Accel X", "linear_accel_x"] ++ "accelX" :: ["accel_x", "accel x", "ax", "AccelX"]) 0 = 5 :=
  (C4_first_nonzero_wins zeroFirstPoint 0).2 (["Linear Accel X", "linear_accel_x"])
    (["accel_x", "accel x", "ax", "AccelX"]) ("accelX") 5
    (by
      intro kp hkp
      simp only [List.mem_cons, List.not_mem_nil, or_false] at hkp
      rcases hkp with rfl | rfl
      · exact Or.inr (by simp [zeroFirstPoint, jsFalsyAt])
      · exact Or.inl (by simp [zeroFirstPoint, jsFalsyAt]))
    (by simp [zeroFirstPoint]) (by norm_num)

/-! ### C5 -/

theorem tailDiffs_cons_cons (a b : ℝ) (l : List ℝ) :
    tailDiffs (a :: b :: l) = (b - a) :: tailDiffs (b :: l) := by
  simp [tailDiffs]

theorem tailDiffs_arithSeq (t0 dt : ℝ) (n : ℕ) :
    tailDiffs (arithSeq t0 dt (n + 1)) = List.replicate n dt := by
  induction n generalizing t0 with
  | zero => simp [arithSeq, tailDiffs]
  | succ m ih =>
    have hs : arithSeq t0 dt (m + 2) = t0 :: (t0 + dt) :: arithSeq (t0 + dt + dt) dt m := rfl
    rw [hs, tailDiffs_cons_cons,
      show (t0 + dt) :: arithSeq (t0 + dt + dt) dt m = arithSeq (t0 + dt) dt (m + 1) from rfl,
      ih (t0 + dt), List.replicate_succ]
    congr 1
    ring

theorem zip_replicate_same {α β : Type} (a : α) (b : β) (m : ℕ) :
    (List.replicate m a).zip (List.replicate m b) = List.replicate m (a, b) := by
  induction m with
  | zero => rfl
  | succ k ih => simp [List.replicate_succ, ih]

theorem velAux_replicate_getD (a : Vec3) (d : ℝ) (m : ℕ) (v0 : Vec3) (i : ℕ) (h : i < m) :
    (velAux v0 (List.replicate m (a, d))).getD i Vec3.zero =
      ⟨v0.x + ((i : ℝ) + 1) * (a.x * d), v0.y + ((i : ℝ) + 1) * (a.y * d),
       v0.z + ((i : ℝ) + 1) * (a.z * d)⟩ := by
  induction m generalizing v0 i with
  | zero => omega
  | succ m ih =>
    rw [List.replicate_succ]
    simp only [velAux]
    cases i with
    | zero =>
      simp only [List.getD_cons_zero, Vec3.mk.injEq]
      refine ⟨by ring, by ring, by ring⟩
    | succ j =>
      rw [List.getD_cons_succ, ih _ j (by omega)]
      simp only [Vec3.mk.injEq]
      push_cast
      refine ⟨by ring, by ring, by ring⟩

/-- C5: in the raw-integration variant, for a window of `n` samples with
constant acceleration vector `a` and uniformly spaced timestamps `dt` apart,
the forward-Euler integrated velocity at sample `i` is exactly `a·i·dt`
(componentwise), with velocity `(0,0,0)` at sample 0. -/
theorem C5_euler_exact (t0 dt : ℝ) (a : Vec3) (n i : ℕ) (h : i < n) :
    (velocities (List.replicate n a) (dtList (arithSeq t0 dt n))).getD i Vec3.zero =
      ⟨(i : ℝ) * dt * a.x, (i : ℝ) * dt * a.y, (i : ℝ) * dt * a.z⟩ := by
  cases n with
  | zero => omega
  | succ m =>
    rw [show List.replicate (m + 1) a = a :: List.replicate m a from rfl]
    simp only [velocities]
    have hdt : dtList (arithSeq t0 dt (m + 1)) = 0 :: List.replicate m dt := by
      rw [dtList, tailDiffs_arithSeq]
    rw [hdt]
    simp only [List.drop_succ_cons, List.drop_zero, zip_replicate_same]
    cases i with
    | zero =>
      simp [Vec3.zero]
    | succ j =>
      rw [List.getD_cons_succ, velAux_replicate_getD a dt m Vec3.zero j (by omega)]
      simp only [Vec3.zero, Vec3.mk.injEq]
      push_cast
      refine ⟨by ring, by ring, by ring⟩

/-- Witness for C5: 3 samples at 100 Hz with constant acceleration
(2, 0, 0); the velocity at sample 2 is (0.04, 0, 0). -/
theorem C5_witness :
    (2 : ℕ) < 3 ∧
    (velocities (List.replicate 3 ⟨2, 0, 0⟩) (dtList (arithSeq 0 (1 / 100) 3))).getD 2 Vec3.zero =
      ⟨((2 : ℕ) : ℝ) * (1 / 100) * 2, ((2 : ℕ) : ℝ) * (1 / 100) * 0, ((2 : ℕ) : ℝ) * (1 / 100) * 0⟩ :=
  ⟨by norm_num, C5_euler_exact 0 (1 / 100) ⟨2, 0, 0⟩ 3 2 (by norm_num)⟩

/-! ### C1 -/

theorem jsSlice_map {α β : Type} (f : α → β) (l : List α) (a b : ℕ) :
    jsSlice (l.map f) a b = (jsSlice l a b).map f := by
  simp [jsSlice, List.map_take, List.map_drop]

/-- C1 (amended): the raw-variant pipeline has no pressure-derived velocity
mode — its output is a function of the samples' timestamps and resolved
acceleration channels only. Any two datasets that agree on those (and may
disagree arbitrarily on a pressure channel or any other channel) produce
identical coefficient series; velocity is always the integrated-acceleration
speed and dynamic pressure is always `0.5·ρ·speed²`, never the raw pressure
reading. -/
theorem C1_pressure_independent (data1 data2 : List IMUDataPoint) (bounds : FlightBounds)
    (params : AircraftParameters)
    (h : data1.map (fun p => (p.timestamp, extractSensorData p)) =
         data2.map (fun p => (p.timestamp, extractSensorData p))) :
    calculateAerodynamicCoefficients data1 bounds params =
      calculateAerodynamicCoefficients data2 bounds params := by
  have hsl : (jsSlice data1 bounds.flightStart (bounds.flightEnd + 1)).map
        (fun p => (p.timestamp, extractSensorData p)) =
      (jsSlice data2 bounds.flightStart (bounds.flightEnd + 1)).map
        (fun p => (p.timestamp, extractSensorData p)) := by
    rw [← jsSlice_map, ← jsSlice_map, h]
  have hlen : (jsSlice data1 bounds.flightStart (bounds.flightEnd + 1)).length =
      (jsSlice data2 bounds.flightStart (bounds.flightEnd + 1)).length := by
    have := congrArg List.length hsl
    simpa using this
  have htime : (jsSlice data1 bounds.flightStart (bounds.flightEnd + 1)).map
        (fun p => p.timestamp) =
      (jsSlice data2 bounds.flightStart (bounds.flightEnd + 1)).map (fun p => p.timestamp) := by
    have := congrArg (List.map Prod.fst) hsl
    simpa [List.map_map, Function.comp] using this
  have haccel : (jsSlice data1 bounds.flightStart (bounds.flightEnd + 1)).map extractSensorData =
      (jsSlice data2 bounds.flightStart (bounds.flightEnd + 1)).map extractSensorData := by
    have := congrArg (List.map Prod.snd) hsl
    simpa [List.map_map, Function.comp] using this
  simp only [calculateAerodynamicCoefficients]
  rw [hlen, htime, haccel]

/-- Counterexample to C1 as stated: on a dataset carrying a pressure channel
of 50 Pa with air density 1.225, the computed velocities are 0 at every
record — not the pressure-derived `sqrt(2·50/1.225) ≈ 9.035`, which is
nonzero. No pressure-derived velocity mode exists in the code. -/
theorem C1_counterexample :
    (calculateAerodynamicCoefficients presData1 ⟨0, 1, 0, 0⟩ ⟨10, 2, 1.225⟩).map
        (fun r => r.velocity) = [0, 0] ∧
    Real.sqrt (2 * 50 / 1.225) ≠ 0 := by
  constructor
  · simp [calculateAerodynamicCoefficients, presData1, jsSlice, extractSensorData,
      resolveChannel, accelXKeys, accelYKeys, accelZKeys, dtList, tailDiffs, velocities,
      velAux, coeffRecord, vectorMagnitude, Vec3.zero]
  · rw [Real.sqrt_ne_zero']
    norm_num

/-- Witness for C1 (amended): changing the pressure channel from 50 to 999
leaves the computed coefficient series unchanged. -/
theorem C1_witness :
    presData1.map (fun p => (p.timestamp, extractSensorData p)) =
      presData2.map (fun p => (p.timestamp, extractSensorData p)) ∧
    calculateAerodynamicCoefficients presData1 ⟨0, 1, 0, 0⟩ ⟨10, 2, 1.225⟩ =
      calculateAerodynamicCoefficients presData2 ⟨0, 1, 0, 0⟩ ⟨10, 2, 1.225⟩ := by
  have hproj : presData1.map (fun p => (p.timestamp, extractSensorData p)) =
      presData2.map (fun p => (p.timestamp, extractSensorData p)) := by
    simp [presData1, presData2, extractSensorData, resolveChannel,
      accelXKeys, accelYKeys, accelZKeys]
  exact ⟨hproj, C1_pressure_independent presData1 presData2 ⟨0, 1, 0, 0⟩ ⟨10, 2, 1.225⟩ hproj⟩

/-! ### C3 -/

theorem zipWith_eq_map_zip {α β γ : Type} (f : α → β → γ) (l1 : List α) (l2 : List β) :
    List.zipWith f l1 l2 = (l1.zip l2).map (fun p => f p.1 p.2) := by
  induction l1 generalizing l2 with
  | nil => simp
  | cons a rest ih => cases l2 <;> simp [ih]

theorem mapMO_eq_some {α β : Type} (f : α → Option β) (g : α → β) (l : List α)
    (h : ∀ x ∈ l, f x = some (g x)) : mapMO f l = some (l.map g) := by
  induction l with
  | nil => rfl
  | cons a rest ih =>
    have ha := h a (List.mem_cons_self a rest)
    have hrest := ih (fun x hx => h x (List.mem_cons_of_mem a hx))
    simp [mapMO, ha, hrest]

theorem coeffRecordChecked_eq (params : AircraftParameters) (t : ℝ) (a v : Vec3)
    (hρ : 0 < params.airDensity) (hS : 0 < params.wingSurfaceArea) :
    coeffRecordChecked params t a v = some (coeffRecord params t a v) := by
  have h8 : (0 : ℝ) < 1e-8 := by norm_num
  have hvm : 0 ≤ vectorMagnitude v := Real.sqrt_nonneg _
  have hden1 : vectorMagnitude v + 1e-8 ≠ 0 := by
    have : (0 : ℝ) < vectorMagnitude v + 1e-8 := by linarith
    exact ne_of_gt this
  have hq : 0 ≤ 0.5 * params.airDensity * vectorMagnitude v * vectorMagnitude v :=
    mul_nonneg (mul_nonneg (mul_nonneg (by norm_num) hρ.le) hvm) hvm
  have hden2 : 0.5 * params.airDensity * vectorMagnitude v * vectorMagnitude v *
      params.wingSurfaceArea + 1e-8 ≠ 0 := by
    have : (0 : ℝ) < 0.5 * params.airDensity * vectorMagnitude v * vectorMagnitude v *
        params.wingSurfaceArea + 1e-8 :=
      add_pos_of_nonneg_of_pos (mul_nonneg hq hS.le) h8
    exact ne_of_gt this
  simp only [coeffRecordChecked, coeffRecord, divO]
  split_ifs with hv
  · simp [hden1, hden2]
  · rfl

/-- C3: no division performed anywhere in the raw variant's coefficient loop
ever has a zero denominator (for strictly positive air density and wing
area): the checked-division evaluation of the whole pipeline succeeds and
agrees with the plain real-valued evaluation, so over the reals every output
CL and CD is a well-defined quotient — the epsilon guards keep every
denominator strictly positive even at zero or near-zero speed. -/
theorem C3_no_division_degenerates (data : List IMUDataPoint) (bounds : FlightBounds)
    (params : AircraftParameters)
    (hρ : 0 < params.airDensity) (hS : 0 < params.wingSurfaceArea) :
    calculateChecked data bounds params =
      some (calculateAerodynamicCoefficients data bounds params) := by
  simp only [calculateChecked, calculateAerodynamicCoefficients]
  by_cases h0 : (jsSlice data bounds.flightStart (bounds.flightEnd + 1)).length = 0
  · simp [h0]
  · rw [if_neg h0, if_neg h0, zipWith_eq_map_zip]
    exact mapMO_eq_some _ _ _
      (fun x _ => coeffRecordChecked_eq params x.1.1 x.1.2 x.2 hρ hS)

/-- Witness for C3 on a concrete two-sample dataset with positive
parameters. -/
theorem C3_witness :
    (0 : ℝ) < (1.225 : ℝ) ∧ (0 : ℝ) < (10 : ℝ) ∧
    calculateChecked tinyData ⟨0, 1, 0, 0⟩ ⟨10, 2, 1.225⟩ =
      some (calculateAerodynamicCoefficients tinyData ⟨0, 1, 0, 0⟩ ⟨10, 2, 1.225⟩) :=
  ⟨by norm_num, by norm_num,
   C3_no_division_degenerates tinyData ⟨0, 1, 0, 0⟩ ⟨10, 2, 1.225⟩ (by norm_num) (by norm_num)⟩

/-! ### C6 -/

/-- Counterexample to C6 as stated: in the orientation-aware variant, the
second output record of a concrete run has speed 1/20 = 0.05 m/s (below the
0.1 m/s gate) and carries `dynamicPressure = 0` — the literal zero written by
the low-speed branch — whereas the corresponding `0.5·ρ·speed²` value is
nonzero. -/
theorem C6_counterexample :
    ((calculateAerodynamicCoefficientsOriented c6data ⟨0, 1, 0, 0⟩ c6params).getD 1
        ⟨0, 0, 0, 0, 0⟩).velocity = 1 / 20 ∧
    ((calculateAerodynamicCoefficientsOriented c6data ⟨0, 1, 0, 0⟩ c6params).getD 1
        ⟨0, 0, 0, 0, 0⟩).dynamicPressure = 0 ∧
    0.5 * (1.225 : ℝ) * (1 / 20) * (1 / 20) ≠ 0 := by
  have hsqrt400 : Real.sqrt (1 / 400) = 1 / 20 := by
    rw [show (1 / 400 : ℝ) = (1 / 20) * (1 / 20) by norm_num]
    exact Real.sqrt_mul_self (by norm_num)
  have hmain : calculateAerodynamicCoefficientsOriented c6data ⟨0, 1, 0, 0⟩ c6params =
      applySmoothing 2.5 100 [⟨0, 0, 0, 0, 0⟩, ⟨50, 0, 0, 1 / 20, 0⟩] := by
    simp [calculateAerodynamicCoefficientsOriented, c6data, c6point0, c6point1, c6params,
      jsSlice, pointQuaternion, pointAccel, resolveChannel, averageQuaternion,
      quaternionToRotationMatrix, multiplyMatrices, transformVector, earthAccel,
      orientLoop, orientStep, orientRecord, vectorMagnitude, Vec3.zero]
    norm_num [hsqrt400]
  rw [hmain]
  have h2 : (1 : ℕ) <
      ([(⟨0, 0, 0, 0, 0⟩ : AerodynamicCoefficient), ⟨50, 0, 0, 1 / 20, 0⟩]).length := by
    norm_num
  refine ⟨?_, ?_, by norm_num⟩
  · simp only [applySmoothing]
    rw [mapIdx_getD _ _ _ h2]
    simp
  · simp only [applySmoothing]
    rw [mapIdx_getD _ _ _ h2]
    simp

/-- C6 (amended): at or below each variant's low-speed gate the coefficients
are exact zeros: the raw variant (threshold 1e-8) emits CL = CD = 0 with
`dynamicPressure = 0.5·ρ·speed²`, while the orientation-aware variant
(threshold 0.1 m/s) emits CL = CD = 0 with dynamicPressure hard-coded to 0
(which equals `0.5·ρ·speed²` only when the speed is exactly zero, as at the
first sample of every window). -/
theorem C6_degenerate_records (params : AircraftParameters) (t : ℝ) (a v : Vec3) :
    (vectorMagnitude v ≤ 1e-8 →
      coeffRecord params t a v =
        { timestamp := t, CL := 0, CD := 0, velocity := vectorMagnitude v,
          dynamicPressure := 0.5 * params.airDensity * vectorMagnitude v * vectorMagnitude v }) ∧
    (vectorMagnitude v < 0.1 →
      orientRecord params t a v =
        { timestamp := t, CL := 0, CD := 0, velocity := vectorMagnitude v,
          dynamicPressure := 0 }) := by
  constructor
  · intro h
    simp only [coeffRecord]
    rw [if_neg (not_lt.mpr h)]
  · intro h
    simp only [orientRecord]
    rw [if_pos h]

/-- Witness for C6 (amended) at the zero velocity vector (the initial state
of every window). -/
theorem C6_witness :
    vectorMagnitude Vec3.zero ≤ 1e-8 ∧ vectorMagnitude Vec3.zero < 0.1 ∧
    coeffRecord ⟨1, 1, 1⟩ 0 ⟨0, 0, 0⟩ Vec3.zero =
      { timestamp := 0, CL := 0, CD := 0, velocity := vectorMagnitude Vec3.zero,
        dynamicPressure := 0.5 * (⟨1, 1, 1⟩ : AircraftParameters).airDensity *
          vectorMagnitude Vec3.zero * vectorMagnitude Vec3.zero } ∧
    orientRecord ⟨1, 1, 1⟩ 0 ⟨0, 0, 0⟩ Vec3.zero =
      { timestamp := 0, CL := 0, CD := 0, velocity := vectorMagnitude Vec3.zero,
        dynamicPressure := 0 } := by
  have hm : vectorMagnitude Vec3.zero ≤ 1e-8 := by
    norm_num [vectorMagnitude, Vec3.zero]
  have hm2 : vectorMagnitude Vec3.zero < 0.1 := by
    norm_num [vectorMagnitude, Vec3.zero]
  exact ⟨hm, hm2, (C6_degenerate_records ⟨1, 1, 1⟩ 0 ⟨0, 0, 0⟩ Vec3.zero).1 hm,
    (C6_degenerate_records ⟨1, 1, 1⟩ 0 ⟨0, 0, 0⟩ Vec3.zero).2 hm2⟩

/-! ### C8 -/

/-- Counterexample to C8 as stated: with a valid two-sample flight window but
an empty stationary window, the orientation-aware computation returns the
empty series instead of a full-length (two-record) one. -/
theorem C8_counterexample :
    calculateAerodynamicCoefficientsOriented c6data ⟨0, 1, 2, 1⟩ c6params = [] ∧
    (jsSlice c6data 0 (1 + 1)).length = 2 ∧
    (jsSlice c6data 2 (1 + 1)).length = 0 := by
  refine ⟨?_, by simp [c6data, jsSlice], by simp [c6data, jsSlice]⟩
  simp [calculateAerodynamicCoefficientsOriented, c6data, jsSlice]

/-- C8 (amended): an empty stationary calibration window aborts the
orientation-aware run — the guard returns the empty coefficient series before
any calibration or integration happens. The identity-quaternion fallback does
exist in `averageQuaternion` for an empty input, but it is unreachable from
`calculateAerodynamicCoefficientsOriented`. -/
theorem C8_empty_stationary_aborts (data : List IMUDataPoint) (bounds : FlightBounds)
    (params : AircraftParameters)
    (h : (jsSlice data bounds.stationaryStart (bounds.stationaryEnd + 1)).length = 0) :
    calculateAerodynamicCoefficientsOriented data bounds params = [] ∧
    averageQuaternion [] = ⟨1, 0, 0, 0⟩ :=
  ⟨by simp [calculateAerodynamicCoefficientsOriented, h], rfl⟩

/-- Witness for C8 (amended) on the concrete dataset. -/
theorem C8_witness :
    (jsSlice c6data 2 (1 + 1)).length = 0 ∧
    calculateAerodynamicCoefficientsOriented c6data ⟨0, 1, 2, 1⟩ c6params = [] ∧
    averageQuaternion [] = ⟨1, 0, 0, 0⟩ :=
  ⟨by simp [c6data, jsSlice],
   (C8_empty_stationary_aborts c6data ⟨0, 1, 2, 1⟩ c6params (by simp [c6data, jsSlice])).1,
   (C8_empty_stationary_aborts c6data ⟨0, 1, 2, 1⟩ c6params (by simp [c6data, jsSlice])).2⟩

end

end AeroSpec
